import Mathlib

/- Shallow embedding of the RexAI repository (a NEAT-evolved controller for an
endless-runner game).  Numeric values (Python floats) are modelled as rationals;
Python exceptions are modelled with `Except`; Python `None` results are modelled
with `Option`.  Each definition mirrors one function or class of the source. -/

namespace RexAI

/-- Python exceptions that the modelled code can raise. -/
inductive PyErr where
  | attributeError : String → PyErr
  | unpicklingError : PyErr
  | indexError : PyErr
  | other : String → PyErr
deriving DecidableEq, Repr

/-- Entries printed by the error-handling branches (modelled structurally
instead of as formatted strings). -/
inductive LogEntry where
  | networkError : PyErr → LogEntry
  | offendingInputs : List ℚ → LogEntry
  | genomeNotFound : ℕ → LogEntry
deriving DecidableEq, Repr

/-- The sensor dictionary built in `run_dino_game_generation` and consumed by
`DinoNetwork.get_action` (network.py lines 33-45): all 12 numeric fields. -/
structure SensorData where
  distance : ℚ
  type_encoded : ℚ
  speed : ℚ
  obstacle_width : ℚ
  obstacle_height : ℚ
  obstacle_x : ℚ
  obstacle_y : ℚ
  dino_x : ℚ
  dino_y : ℚ
  dino_width : ℚ
  dino_height : ℚ
  dino_state : ℚ
deriving DecidableEq, Repr

/-- The 12-tuple of inputs built in `DinoNetwork.get_action`
(network.py lines 47-60), in source order. -/
def sensorInputs (s : SensorData) : List ℚ :=
  [s.distance, s.type_encoded, s.speed,
   s.obstacle_width, s.obstacle_height, s.obstacle_x, s.obstacle_y,
   s.dino_x, s.dino_y, s.dino_width, s.dino_height, s.dino_state]

/-- A node gene of a NEAT genome (spec section 3: bias, response, activation,
aggregation; identity is the key it is stored under). -/
structure NodeGene where
  bias : ℚ
  response : ℚ
  activation : String
  aggregation : String
deriving DecidableEq, Repr

/-- A connection gene: weight, enabled flag and innovation number
(spec section 3); identity is the (source, target) key it is stored under. -/
structure ConnectionGene where
  weight : ℚ
  enabled : Bool
  innovation : ℕ
deriving DecidableEq, Repr

/-- A NEAT genome: id, node genes keyed by node id (inputs are negative),
connection genes keyed by (source, target), and an optional fitness. -/
structure Genome where
  key : ℕ
  nodes : List (ℤ × NodeGene)
  connections : List ((ℤ × ℤ) × ConnectionGene)
  fitness : Option ℚ
deriving DecidableEq, Repr

/-- One species record of the species set: id and member genome ids. -/
structure SpeciesRec where
  key : ℕ
  members : List ℕ
deriving DecidableEq, Repr

/-- The `neat.Population` aggregate as the controller uses it: the genome dict
(`population.population`), the species set (`population.species.species`) and
the generation counter. -/
structure Population where
  members : List (ℕ × Genome)
  species : List SpeciesRec
  generation : ℕ
deriving DecidableEq, Repr

/-- A `DinoNetwork` object: its constructor (network.py lines 7-16) captures
the genome it was built from; the feed-forward evaluation itself lives in the
external neat library and is passed in as an activation semantics. -/
structure DinoNet where
  genome : Genome
deriving DecidableEq, Repr

/-- The kind of activation semantics supplied by `neat.nn.FeedForwardNetwork`:
for a genome and an input vector it either produces outputs or raises. -/
def ActSem : Type := Genome → List ℚ → Except PyErr (List ℚ)

/-- `DinoNetwork.get_action` (network.py lines 26-78).  The 12 inputs are read
from the sensor dictionary; the `try` block activates the network and applies
the threshold chain `jump > 0.5 / duck > 0.5 / run > 0.5`; any exception inside
the block is caught, logged with the offending inputs, and `"run"` is returned.
When no branch of the chain fires, the Python function falls through without a
`return` statement and yields `None` (modelled as `none`). -/
def DinoNetwork.get_action (act : ActSem) (net : DinoNet) (s : SensorData) :
    Except PyErr (Option String × List LogEntry) :=
  let inputs := sensorInputs s
  match act net.genome inputs with
  | .error e => .ok (some "run", [LogEntry.networkError e, LogEntry.offendingInputs inputs])
  | .ok output =>
    match output with
    | j :: d :: r :: _ =>
      if j > 1/2 then .ok (some "jump", [])
      else if d > 1/2 then .ok (some "duck", [])
      else if r > 1/2 then .ok (some "run", [])
      else .ok (none, [])
    | _ =>
      .ok (some "run", [LogEntry.networkError PyErr.indexError, LogEntry.offendingInputs inputs])

/- ----------------------------------------------------------------------
Persistence.  `save_population` / `load_population` serialize through the
standard `pickle` module.  A pickle file is modelled as the object graph it
stores (`PVal`); pickling is a concrete structural encoder and unpickling its
decoder, so that round-trip fidelity is proved rather than assumed.
---------------------------------------------------------------------- -/

/-- A pickled object graph: the value kinds the snapshots contain. -/
inductive PVal where
  | pnat : ℕ → PVal
  | pint : ℤ → PVal
  | prat : ℚ → PVal
  | pstr : String → PVal
  | pbool : Bool → PVal
  | pnone : PVal
  | plist : List PVal → PVal
deriving Repr

/-- Decode a list of pickled values element by element; any failure fails the
whole list (unpickling error). -/
def decodeList {α : Type} (dec : PVal → Option α) : List PVal → Option (List α)
  | [] => some []
  | v :: vs =>
    match dec v, decodeList dec vs with
    | some a, some as => some (a :: as)
    | _, _ => none

def encodeOptionRat : Option ℚ → PVal
  | none => PVal.pnone
  | some q => PVal.prat q

def decodeOptionRat : PVal → Option (Option ℚ)
  | PVal.pnone => some none
  | PVal.prat q => some (some q)
  | _ => none

def encodeNodeGene (n : NodeGene) : PVal :=
  PVal.plist [PVal.prat n.bias, PVal.prat n.response, PVal.pstr n.activation, PVal.pstr n.aggregation]

def decodeNodeGene : PVal → Option NodeGene
  | PVal.plist [PVal.prat b, PVal.prat r, PVal.pstr a, PVal.pstr g] => some ⟨b, r, a, g⟩
  | _ => none

def encodeNodeEntry (e : ℤ × NodeGene) : PVal :=
  PVal.plist [PVal.pint e.1, encodeNodeGene e.2]

def decodeNodeEntry : PVal → Option (ℤ × NodeGene)
  | PVal.plist [PVal.pint k, v] => (decodeNodeGene v).map (fun n => (k, n))
  | _ => none

def encodeConnGene (c : ConnectionGene) : PVal :=
  PVal.plist [PVal.prat c.weight, PVal.pbool c.enabled, PVal.pnat c.innovation]

def decodeConnGene : PVal → Option ConnectionGene
  | PVal.plist [PVal.prat w, PVal.pbool e, PVal.pnat i] => some ⟨w, e, i⟩
  | _ => none

def encodeConnEntry (e : (ℤ × ℤ) × ConnectionGene) : PVal :=
  PVal.plist [PVal.pint e.1.1, PVal.pint e.1.2, encodeConnGene e.2]

def decodeConnEntry : PVal → Option ((ℤ × ℤ) × ConnectionGene)
  | PVal.plist [PVal.pint a, PVal.pint b, v] => (decodeConnGene v).map (fun c => ((a, b), c))
  | _ => none

def encodeGenome (g : Genome) : PVal :=
  PVal.plist [PVal.pnat g.key,
    PVal.plist (g.nodes.map encodeNodeEntry),
    PVal.plist (g.connections.map encodeConnEntry),
    encodeOptionRat g.fitness]

def decodeGenome : PVal → Option Genome
  | PVal.plist [PVal.pnat k, PVal.plist ns, PVal.plist cs, f] =>
    match decodeList decodeNodeEntry ns, decodeList decodeConnEntry cs, decodeOptionRat f with
    | some nodes, some conns, some fit => some ⟨k, nodes, conns, fit⟩
    | _, _, _ => none
  | _ => none

def encodeMemberEntry (e : ℕ × Genome) : PVal :=
  PVal.plist [PVal.pnat e.1, encodeGenome e.2]

def decodeMemberEntry : PVal → Option (ℕ × Genome)
  | PVal.plist [PVal.pnat k, v] => (decodeGenome v).map (fun g => (k, g))
  | _ => none

def decodeNat : PVal → Option ℕ
  | PVal.pnat n => some n
  | _ => none

def encodeSpeciesRec (s : SpeciesRec) : PVal :=
  PVal.plist [PVal.pnat s.key, PVal.plist (s.members.map PVal.pnat)]

def decodeSpeciesRec : PVal → Option SpeciesRec
  | PVal.plist [PVal.pnat k, PVal.plist ms] => (decodeList decodeNat ms).map (fun l => ⟨k, l⟩)
  | _ => none

def encodePopulation (p : Population) : PVal :=
  PVal.plist [PVal.plist (p.members.map encodeMemberEntry),
    PVal.plist (p.species.map encodeSpeciesRec),
    PVal.pnat p.generation]

def decodePopulation : PVal → Option Population
  | PVal.plist [PVal.plist ms, PVal.plist ss, PVal.pnat g] =>
    match decodeList decodeMemberEntry ms, decodeList decodeSpeciesRec ss with
    | some members, some species => some ⟨members, species, g⟩
    | _, _ => none
  | _ => none

/-- The state of one file on disk: missing, corrupt (unpickling raises), or a
valid pickle of an object graph. -/
inductive FileState where
  | absent : FileState
  | corrupt : FileState
  | pickled : PVal → FileState
deriving Repr

/-- The file system seen by the persistence methods. -/
def FS : Type := String → FileState

/-- `os.path.exists` on the modelled file system. -/
def fileExists (fs : FS) (fname : String) : Bool :=
  match fs fname with
  | FileState.absent => false
  | _ => true

/- ----------------------------------------------------------------------
AIController (src/src/controllers/ai_controller.py).  Python dictionaries
are modelled as association lists; the external neat library operations
(initial population creation, feed-forward activation, reproduction) are
parameters, as the spec treats them as collaborators of the core.
---------------------------------------------------------------------- -/

/-- Dictionary lookup on an association list (first binding wins, as a Python
dict updated by insertion at the front). -/
def lookupAssoc {α β : Type} [DecidableEq α] : List (α × β) → α → Option β
  | [], _ => none
  | (k, v) :: rest, key => if k = key then some v else lookupAssoc rest key

/-- The `network_stats` dictionary read by `run_generation`
(ai_controller.py lines 207-226). -/
structure NetworkStats where
  nodes_created : ℕ
  connections_created : ℕ
  mutations : ℕ
  species_count : ℕ
  best_fitness : ℚ
deriving DecidableEq, Repr

/-- total node-gene count over the population (the sums computed in
`__init__`, `reset`, `load_population` and `run_generation`). -/
def totalNodeCount (p : Population) : ℕ :=
  (p.members.map (fun m => m.2.nodes.length)).sum

/-- total connection-gene count over the population. -/
def totalConnCount (p : Population) : ℕ :=
  (p.members.map (fun m => m.2.connections.length)).sum

/-- The attribute state of an `AIController` object.  `network_stats` is an
`Option` because the attribute is only defined if some method assigns it;
no method of the class ever does, so reads of it raise `AttributeError`. -/
structure AIControllerState where
  population : Population
  generation : ℕ
  networks : List (ℕ × DinoNet)
  network_stats : Option NetworkStats
  initialNodeCount : ℕ
  initialConnCount : ℕ
  previousBestGenomeId : Option ℕ
deriving Repr

/-- `AIController.__init__` (lines 13-36): builds a fresh `neat.Population`
(supplied by the external library for the configured settings), zeroes the
generation counter and the network cache, and records the initial structure
sizes.  No assignment to `network_stats` occurs. -/
def AIController.init (freshPop : Population) : AIControllerState :=
  { population := freshPop
    generation := 0
    networks := []
    network_stats := none
    initialNodeCount := totalNodeCount freshPop
    initialConnCount := totalConnCount freshPop
    previousBestGenomeId := none }

/-- `AIController.reset` (lines 38-50): replaces the population with a fresh
one, zeroes the generation counter and clears the network cache. -/
def AIController.reset (c : AIControllerState) (freshPop : Population) : AIControllerState :=
  { c with
    population := freshPop
    generation := 0
    networks := []
    initialNodeCount := totalNodeCount freshPop
    initialConnCount := totalConnCount freshPop
    previousBestGenomeId := none }

/-- `AIController.get_best_genome` (lines 233-249): linear scan for the genome
with the highest non-None fitness, starting from best_fitness = -1. -/
def AIController.get_best_genome (c : AIControllerState) : Option Genome :=
  (c.population.members.foldl
    (fun acc p =>
      match p.2.fitness with
      | some f => if f > acc.1 then (f, some p.2) else acc
      | none => acc)
    ((-1 : ℚ), (none : Option Genome))).2

/-- `AIController.save_population` (lines 65-72): pickle the whole population
object to the named file. -/
def AIController.save_population (c : AIControllerState) (fs : FS) (fname : String) : FS :=
  fun n => if n = fname then FileState.pickled (encodePopulation c.population) else fs n

/-- `AIController.save_best_genome` (lines 52-63): pickle the best genome if
one exists, otherwise leave the file system unchanged. -/
def AIController.save_best_genome (c : AIControllerState) (fs : FS) (fname : String) : FS :=
  match AIController.get_best_genome c with
  | some g => fun n => if n = fname then FileState.pickled (encodeGenome g) else fs n
  | none => fs

/-- The effective `AIController.load_population` (lines 152-171, the second
definition in the class body, which overrides the first): if the file does not
exist, print a not-found message and return `False`; otherwise unpickle it into
`self.population` and return `True`.  A corrupt file makes `pickle.load` raise,
and the exception propagates (there is no try/except).  Note this definition
does NOT reset `self.networks` nor touch `self.generation`. -/
def AIController.load_population (c : AIControllerState) (fs : FS) (fname : String) :
    Except PyErr (AIControllerState × Bool) :=
  match fs fname with
  | FileState.absent => .ok (c, false)
  | FileState.corrupt => .error PyErr.unpicklingError
  | FileState.pickled v =>
    match decodePopulation v with
    | some p => .ok ({ c with population := p }, true)
    | none => .error PyErr.unpicklingError

/-- The first, shadowed `load_population` definition (lines 90-112), kept for
reference: it additionally refreshed the tracking counters and cleared the
network cache.  Python class bodies bind the later definition, so this one is
never the method that runs. -/
def AIController.load_population_shadowed (c : AIControllerState) (fs : FS) (fname : String) :
    Except PyErr (AIControllerState × Bool) :=
  match fs fname with
  | FileState.absent => .ok (c, false)
  | FileState.corrupt => .error PyErr.unpicklingError
  | FileState.pickled v =>
    match decodePopulation v with
    | some p =>
      let c' := { c with
        population := p,
        initialNodeCount := totalNodeCount p,
        initialConnCount := totalConnCount p,
        networks := [] }
      .ok (c', true)
    | none => .error PyErr.unpicklingError

/-- The effective `AIController.load_best_genome` (lines 131-150): `None` when
the file does not exist; the unpickled genome otherwise; raises on a corrupt
file. -/
def AIController.load_best_genome (fs : FS) (fname : String) :
    Except PyErr (Option Genome) :=
  match fs fname with
  | FileState.absent => .ok none
  | FileState.corrupt => .error PyErr.unpicklingError
  | FileState.pickled v =>
    match decodeGenome v with
    | some g => .ok (some g)
    | none => .error PyErr.unpicklingError

/-- `AIController.get_action` (lines 114-129): build and cache a `DinoNetwork`
for the genome on first use; if the genome id is in neither the cache nor the
population, warn and return the default action `"run"`. -/
def AIController.get_action (act : ActSem) (c : AIControllerState) (s : SensorData) (gid : ℕ) :
    AIControllerState × Except PyErr (Option String × List LogEntry) :=
  match lookupAssoc c.networks gid with
  | some net => (c, DinoNetwork.get_action act net s)
  | none =>
    match lookupAssoc c.population.members gid with
    | some g =>
      let net : DinoNet := ⟨g⟩
      ({ c with networks := (gid, net) :: c.networks }, DinoNetwork.get_action act net s)
    | none => (c, .ok (some "run", [LogEntry.genomeNotFound gid]))

/-- `AIController.run_generation` (lines 183-231).  The generation counter is
incremented, reproduction (`self.population.next_generation()`, an external
library operation passed as `nextGen`) replaces the genome set and the network
cache is cleared; then the method reads `self.network_stats`, which no method
of the class ever assigns, so the read raises `AttributeError` there.  On
error the state mutated so far is kept (Python exceptions do not roll back
assignments). -/
def AIController.run_generation (nextGen : Population → Population) (c : AIControllerState) :
    Except (AIControllerState × PyErr) AIControllerState :=
  let c1 := { c with generation := c.generation + 1 }
  let prevConns := totalConnCount c1.population
  let prevNodes := totalNodeCount c1.population
  let pop' := nextGen c1.population
  let c2 := { c1 with population := pop', networks := [] }
  let currConns := totalConnCount pop'
  let currNodes := totalNodeCount pop'
  let currSpecies := pop'.species.length
  match c2.network_stats with
  | none => .error (c2, PyErr.attributeError "network_stats")
  | some st =>
    let st1 := { st with
      nodes_created := st.nodes_created + (currNodes - prevNodes)
      connections_created := st.connections_created + (currConns - prevConns)
      mutations := st.mutations + 1
      species_count := currSpecies }
    let best := pop'.members.foldl
      (fun acc p =>
        match p.2.fitness with
        | some f => if f > acc.1 then (f, some p.1) else acc
        | none => acc)
      ((0 : ℚ), (none : Option ℕ))
    let st2 := if best.1 > st1.best_fitness then { st1 with best_fitness := best.1 } else st1
    let c3 := { c2 with network_stats := some st2 }
    .ok (if c3.previousBestGenomeId ≠ best.2
         then { c3 with previousBestGenomeId := best.2 }
         else c3)

/-- The controller state at the moment `run_generation` raises: the
generation counter already bumped, the population already reproduced, and the
network cache already cleared (Python keeps these assignments when the later
`network_stats` read raises). -/
def runGenErrState (nextGen : Population → Population) (c : AIControllerState) :
    AIControllerState :=
  { c with
    generation := c.generation + 1
    population := nextGen c.population
    networks := [] }

/-- Controller states reachable through the public lifecycle: construction,
reset, loading a population, on-demand network creation in `get_action`,
`run_generation` (normal or raising), and the direct writes the game loop
performs on `population.population` (dino_game.py line 75). -/
inductive ReachableCtrl : AIControllerState → Prop where
  | init (freshPop : Population) : ReachableCtrl (AIController.init freshPop)
  | reset (c : AIControllerState) (freshPop : Population) :
      ReachableCtrl c → ReachableCtrl (AIController.reset c freshPop)
  | load_population (c c' : AIControllerState) (fs : FS) (fname : String) (b : Bool) :
      ReachableCtrl c → AIController.load_population c fs fname = .ok (c', b) →
      ReachableCtrl c'
  | get_action (act : ActSem) (c : AIControllerState) (s : SensorData) (gid : ℕ) :
      ReachableCtrl c → ReachableCtrl (AIController.get_action act c s gid).1
  | run_generation_ok (nextGen : Population → Population) (c c' : AIControllerState) :
      ReachableCtrl c → AIController.run_generation nextGen c = .ok c' →
      ReachableCtrl c'
  | run_generation_err (nextGen : Population → Population) (c c' : AIControllerState) (e : PyErr) :
      ReachableCtrl c → AIController.run_generation nextGen c = .error (c', e) →
      ReachableCtrl c'
  | setPopulation (c : AIControllerState) (p : Population) :
      ReachableCtrl c → ReachableCtrl { c with population := p }

/- ----------------------------------------------------------------------
TrainingManager (src/src/utils/training_manager.py).
---------------------------------------------------------------------- -/

/-- The attributes `TrainingManager.__init__` (lines 17-23) assigns.  Note the
object has a `genome_path` attribute but no `best_genome_path` attribute. -/
structure TrainingMgr where
  generations : ℕ
  species_name : Option String
  start_fresh : Bool
  genome_path : Option String
  population_path : Option String
deriving Repr

/-- `TrainingManager.setup_training` (lines 25-62).  Branches: explicit fresh
start resets; an existing population file is loaded (a corrupt one propagates
the unpickling exception); a failed load falls back to a reset; if no existing
population file is configured, the `elif` reads `self.best_genome_path`, an
attribute `__init__` never assigns (it assigns `genome_path`), so the access
raises `AttributeError`.  The returned flag records whether a reset happened. -/
def TrainingManager.setup_training (tm : TrainingMgr) (freshPop : Population)
    (c : AIControllerState) (fs : FS) :
    Except PyErr (AIControllerState × Bool) :=
  if tm.start_fresh then
    .ok (AIController.reset c freshPop, true)
  else
    match tm.population_path with
    | some p =>
      if fileExists fs p then
        match AIController.load_population c fs p with
        | .error e => .error e
        | .ok (c', true) => .ok (c', false)
        | .ok (c', false) => .ok (AIController.reset c' freshPop, true)
      else .error (PyErr.attributeError "best_genome_path")
    | none => .error (PyErr.attributeError "best_genome_path")

/- ----------------------------------------------------------------------
The per-generation game loop (src/src/game/dino_game.py,
run_dino_game_generation, lines 55-269).  The pygame environment (obstacle
positions, collision outcomes, the millisecond clock) is external simulation
state; it enters the model as oracles: `env t gid` decides whether the living
dino of genome `gid` collides during the frame whose `pygame.time.get_ticks()`
value is `t`, and `ticksAt i` gives the tick value at loop iteration `i`.
---------------------------------------------------------------------- -/

/-- The loop state: the `dinos` dict as (genome_id, dead) pairs and the
`genomes` list as (genome_id, fitness) pairs, in source order. -/
structure GenSim where
  dinos : List (ℕ × Bool)
  genomes : List (ℕ × Option ℚ)
deriving DecidableEq, Repr

/-- The fitness write at dino_game.py lines 198-202: scan `genomes` for the
first entry with this genome id and set its fitness. -/
def assignFitness : List (ℕ × Option ℚ) → ℕ → ℚ → List (ℕ × Option ℚ)
  | [], _, _ => []
  | (g, f) :: rest, gid, v =>
    if g = gid then (g, some v) :: rest else (g, f) :: assignFitness rest gid v

/-- The collision phase (lines 181-202): every living dino that collides this
frame is marked dead, its death time recorded as the current tick value, and
its genome's fitness set to `death_time / 1000`. -/
def collideDinos (env : ℕ → ℕ → Bool) (t : ℕ) :
    List (ℕ × Bool) → List (ℕ × Option ℚ) → List (ℕ × Bool) × List (ℕ × Option ℚ)
  | [], gs => ([], gs)
  | (gid, dead) :: rest, gs =>
    if !dead && env t gid then
      let gs1 := assignFitness gs gid ((t : ℚ) / 1000)
      let res := collideDinos env t rest gs1
      ((gid, true) :: res.1, res.2)
    else
      let res := collideDinos env t rest gs
      ((gid, dead) :: res.1, res.2)

/-- `remaining_dinos`: the count of living dinos (lines 95-98). -/
def remainingDinos (st : GenSim) : ℕ :=
  (st.dinos.filter (fun d => !d.2)).length

/-- Observable operations of one loop iteration and of the checkpoint code.
The three persistence operations are the ones the spec excludes from the hot
loop. -/
inductive GameEv where
  | getActionEv : ℕ → GameEv
  | obstacleUpdate : GameEv
  | render : GameEv
  | clockTick : GameEv
  | savePopulationEv : String → GameEv
  | saveBestGenomeEv : String → GameEv
  | saveProgressEv : GameEv
deriving DecidableEq, Repr

/-- Is this event a persistence (disk I/O) operation? -/
def GameEv.isPersist : GameEv → Bool
  | GameEv.savePopulationEv _ => true
  | GameEv.saveBestGenomeEv _ => true
  | GameEv.saveProgressEv => true
  | _ => false

/-- The operations one loop-body iteration performs (lines 96-258): a
`get_action` call per living dino, then obstacle updates, rendering, and the
clock tick.  None of them is a persistence operation. -/
def stepEvents (st : GenSim) : List GameEv :=
  ((st.dinos.filter (fun d => !d.2)).map (fun d => GameEv.getActionEv d.1))
    ++ [GameEv.obstacleUpdate, GameEv.render, GameEv.clockTick]

/-- The state change of one loop-body iteration at tick value `t`: the
collision phase updates the dead flags and the fitness list. -/
def stepSim (env : ℕ → ℕ → Bool) (t : ℕ) (st : GenSim) : GenSim :=
  ⟨(collideDinos env t st.dinos st.genomes).1, (collideDinos env t st.dinos st.genomes).2⟩

/-- The `while running_generation` loop (lines 89-258), with fuel bounding the
number of frames: at each iteration, if no dino remains alive the loop exits
normally (`some` final state); otherwise the iteration's operations happen and
the collision phase kills and scores colliding dinos.  Fuel exhaustion (`none`)
models a run that did not complete normally (e.g. the process being quit). -/
def genLoop (env : ℕ → ℕ → Bool) (ticksAt : ℕ → ℕ) :
    ℕ → ℕ → GenSim → Option GenSim × List GameEv
  | 0, _, _ => (none, [])
  | fuel + 1, i, st =>
    if remainingDinos st = 0 then (some st, [])
    else
      ((genLoop env ticksAt fuel (i + 1) (stepSim env (ticksAt i) st)).1,
       stepEvents st ++ (genLoop env ticksAt fuel (i + 1) (stepSim env (ticksAt i) st)).2)

/-- Initial loop state (lines 67-75): one living dino per genome, fitnesses as
the genomes arrive from the library (unset). -/
def initSim (gids : List ℕ) : GenSim :=
  ⟨gids.map (fun g => (g, false)), gids.map (fun g => (g, (none : Option ℚ)))⟩

/-- The checkpoint code after the loop (lines 262-267): with a training
manager, `save_progress` runs every 10th generation (itself saving the
population, the best genome, and a periodic checkpoint —
training_manager.py lines 77-102); without one, a checkpoint population save
runs every 10th generation. -/
def checkpointEvents (hasTrainingManager : Bool) (generationCount : ℕ) : List GameEv :=
  if hasTrainingManager && (generationCount % 10 == 0) then
    [GameEv.saveProgressEv,
     GameEv.savePopulationEv "tests/test_population.pkl",
     GameEv.saveBestGenomeEv "tests/test_genome.pkl",
     GameEv.savePopulationEv "tests/test_checkpoint.pkl"]
  else if generationCount % 10 = 0 then
    [GameEv.savePopulationEv "tests/checkpoint.pkl"]
  else []

/-- `run_dino_game_generation` as a whole: run the loop, then the checkpoint
code.  The emitted trace is the loop's operations followed by the checkpoint
operations. -/
def run_dino_game_generation (env : ℕ → ℕ → Bool) (ticksAt : ℕ → ℕ) (fuel : ℕ)
    (gids : List ℕ) (hasTrainingManager : Bool) (generationCount : ℕ) :
    Option GenSim × List GameEv :=
  let res := genLoop env ticksAt fuel 0 (initSim gids)
  (res.1, res.2 ++ checkpointEvents hasTrainingManager generationCount)

/- ----------------------------------------------------------------------
Sensor extraction (dino_game.py lines 101-145): the per-dino sensor
dictionary built each frame from the game state.
---------------------------------------------------------------------- -/

/-- A pygame rect as the game uses it. -/
structure GameRect where
  x : ℚ
  y : ℚ
  width : ℚ
  height : ℚ
deriving DecidableEq, Repr

/-- `rect.right`. -/
def GameRect.right (r : GameRect) : ℚ := r.x + r.width

/-- `rect.left`. -/
def GameRect.left (r : GameRect) : ℚ := r.x

/-- An obstacle sprite as the sensor code reads it. -/
structure ObstacleS where
  rect : GameRect
  type : String
deriving DecidableEq, Repr

/-- A dino as the sensor code reads it. -/
structure DinoS where
  rect : GameRect
  is_jumping : Bool
  is_ducking : Bool
deriving DecidableEq, Repr

/-- The closest-obstacle scan (lines 102-111): among obstacles strictly ahead
of the dino (`obstacle.rect.x > dino.rect.right`), track the one with the
least leading-edge distance; `none` models `next_obstacle_distance` staying
at infinity. -/
def scanObstacles (dino : DinoS) : List ObstacleS → Option (ℚ × ObstacleS) → Option (ℚ × ObstacleS)
  | [], best => best
  | ob :: rest, best =>
    if ob.rect.x > dino.rect.right then
      match best with
      | none => scanObstacles dino rest (some (ob.rect.left - dino.rect.right, ob))
      | some bd =>
        if ob.rect.left - dino.rect.right < bd.1 then
          scanObstacles dino rest (some (ob.rect.left - dino.rect.right, ob))
        else scanObstacles dino rest best
    else scanObstacles dino rest best

/-- The obstacle-type encoding (lines 116-127). -/
def typeEncode (t : String) : ℚ :=
  if t = "cactus_small" then 1/5
  else if t = "cactus_large" then 2/5
  else if t = "cactus_mixed" then 3/5
  else if t = "bird" then 4/5
  else 0

/-- Building the sensor dictionary (lines 113-145) for one dino from the
obstacle group and the current game speed.  `min 1 (d / 800)` is the distance
normalization against `SCREEN_WIDTH = 800` (with no obstacle ahead the
distance stays infinite and the minimum is 1); the speed is divided by 25;
the geometry fields are raw rect values; `dino_state` is the 0/1/2 code. -/
def extractSensorData (dino : DinoS) (obstacles : List ObstacleS)
    (currentGameSpeed : ℚ) : SensorData :=
  let closest := scanObstacles dino obstacles none
  { distance :=
      match closest with
      | none => 1
      | some p => min 1 (p.1 / 800)
    type_encoded :=
      match closest with
      | none => 0
      | some p => typeEncode p.2.type
    speed := currentGameSpeed / 25
    obstacle_width := match closest with | none => 0 | some p => p.2.rect.width
    obstacle_height := match closest with | none => 0 | some p => p.2.rect.height
    obstacle_x := match closest with | none => 0 | some p => p.2.rect.x
    obstacle_y := match closest with | none => 0 | some p => p.2.rect.y
    dino_x := dino.rect.x
    dino_y := dino.rect.y
    dino_width := dino.rect.width
    dino_height := dino.rect.height
    dino_state := if dino.is_jumping then 0 else if dino.is_ducking then 1 else 2 }

/-- A value is normalized when it lies in the unit interval, as the source's
normalization of distance, obstacle type and speed intends. -/
def isNormalized (q : ℚ) : Prop := 0 ≤ q ∧ q ≤ 1

instance (q : ℚ) : Decidable (isNormalized q) := by
  unfold isNormalized
  infer_instance

/-- Fetch the n-th entry of a sensor vector (0 outside the range). -/
def sensorEntry (l : List ℚ) (n : ℕ) : ℚ := l.getD n 0

/-- A genome id has been scored: the genome list gives it a non-None fitness
that is at least zero. -/
def fitOK (gs : List (ℕ × Option ℚ)) (gid : ℕ) : Prop :=
  ∃ q : ℚ, lookupAssoc gs gid = some (some q) ∧ 0 ≤ q

/-- Invariant of the generation loop: dino ids are unique (they are dict
keys), dinos and genomes list the same ids in the same order (both are built
from the same genome list), and every dead dino's genome is already scored
with a fitness that is at least zero. -/
def simInv (st : GenSim) : Prop :=
  (st.dinos.map Prod.fst).Nodup
  ∧ st.dinos.map Prod.fst = st.genomes.map Prod.fst
  ∧ (∀ gid dead, (gid, dead) ∈ st.dinos → dead = true → fitOK st.genomes gid)

/- ----------------------------------------------------------------------
Concrete sample values used by witnesses.
---------------------------------------------------------------------- -/

/-- A sample node gene. -/
def nodeGeneW : NodeGene := ⟨0, 1, "sigmoid", "sum"⟩

/-- A sample connection gene. -/
def connGeneW : ConnectionGene := ⟨1/2, true, 0⟩

/-- A sample minimal genome (one input, one output, one connection). -/
def genomeW : Genome := ⟨1, [(-1, nodeGeneW), (0, nodeGeneW)], [((-1, 0), connGeneW)], none⟩

/-- A second sample genome, with a fitness. -/
def genomeW2 : Genome := ⟨2, [(-1, nodeGeneW), (0, nodeGeneW)], [((-1, 0), ⟨3, false, 4⟩)], some 3⟩

/-- A sample population. -/
def popW : Population := ⟨[(1, genomeW)], [⟨1, [1]⟩], 0⟩

/-- A second sample population, distinct from `popW`. -/
def popW2 : Population := ⟨[(2, genomeW2)], [⟨4, [2]⟩], 5⟩

/-- A sample sensor dictionary (the values a dino at its spawn position with
no obstacle ahead produces). -/
def sensorW : SensorData := ⟨1, 0, 2/5, 0, 0, 0, 0, 50, 457, 40, 43, 2⟩

/-- A freshly constructed controller over `popW`. -/
def ctrlW : AIControllerState := AIController.init popW

/-- A controller whose network cache holds a network for genome id 1. -/
def ctrlCachedW : AIControllerState :=
  { ctrlW with networks := [(1, ⟨genomeW⟩)] }

/-- A controller with an empty population and an empty network cache. -/
def ctrlEmptyW : AIControllerState := AIController.init ⟨[], [], 0⟩

/-- A sample training manager configured for a fresh start. -/
def tmW : TrainingMgr := ⟨100, none, true, none, none⟩

/-- A sample dino at its spawn position (dino.py lines 32-35: x = 50,
bottom = 500). -/
def dinoW : DinoS := ⟨⟨50, 457, 40, 43⟩, false, false⟩

/- ----------------------------------------------------------------------
Helper lemmas: pickle-codec round trip.
---------------------------------------------------------------------- -/

theorem decodeOptionRat_encode (f : Option ℚ) : decodeOptionRat (encodeOptionRat f) = some f := by
  cases f <;> rfl

theorem decodeNodeEntry_encode (e : ℤ × NodeGene) : decodeNodeEntry (encodeNodeEntry e) = some e :=
  rfl

theorem decodeConnEntry_encode (e : (ℤ × ℤ) × ConnectionGene) :
    decodeConnEntry (encodeConnEntry e) = some e :=
  rfl

theorem decodeMemberEntry_encode_aux (g : Genome)
    (h : decodeGenome (encodeGenome g) = some g) (k : ℕ) :
    decodeMemberEntry (encodeMemberEntry (k, g)) = some (k, g) := by
  simp [encodeMemberEntry, decodeMemberEntry, h]

theorem decodeList_map_encode {α : Type} (enc : α → PVal) (dec : PVal → Option α)
    (h : ∀ a, dec (enc a) = some a) (l : List α) :
    decodeList dec (l.map enc) = some l := by
  induction l with
  | nil => rfl
  | cons x xs ih => simp [List.map, decodeList, h, ih]

theorem decodeGenome_encode (g : Genome) : decodeGenome (encodeGenome g) = some g := by
  obtain ⟨k, ns, cs, f⟩ := g
  simp [encodeGenome, decodeGenome,
    decodeList_map_encode encodeNodeEntry decodeNodeEntry decodeNodeEntry_encode,
    decodeList_map_encode encodeConnEntry decodeConnEntry decodeConnEntry_encode,
    decodeOptionRat_encode]

theorem decodeMemberEntry_encode (e : ℕ × Genome) :
    decodeMemberEntry (encodeMemberEntry e) = some e := by
  obtain ⟨k, g⟩ := e
  exact decodeMemberEntry_encode_aux g (decodeGenome_encode g) k

theorem decodeSpeciesRec_encode (s : SpeciesRec) :
    decodeSpeciesRec (encodeSpeciesRec s) = some s := by
  obtain ⟨k, ms⟩ := s
  simp [encodeSpeciesRec, decodeSpeciesRec,
    decodeList_map_encode PVal.pnat decodeNat (fun n => rfl)]

theorem decodePopulation_encode (p : Population) :
    decodePopulation (encodePopulation p) = some p := by
  obtain ⟨ms, ss, g⟩ := p
  simp [encodePopulation, decodePopulation,
    decodeList_map_encode encodeMemberEntry decodeMemberEntry decodeMemberEntry_encode,
    decodeList_map_encode encodeSpeciesRec decodeSpeciesRec decodeSpeciesRec_encode]

/- ----------------------------------------------------------------------
Claim theorems.
---------------------------------------------------------------------- -/

/-- C1: the claim says `DinoNetwork.get_action` always returns one of the
enumerated actions "jump", "duck" or "run".  The code violates this (and its
own docstring): when every network output is at most 0.5, the threshold chain
falls through without a `return` statement, so the method returns Python
`None` — here evaluated on output vector [0, 0, 0] for a well-formed sensor
dictionary. -/
theorem C1_fall_through_returns_none :
    DinoNetwork.get_action (fun _ _ => .ok [0, 0, 0]) ⟨genomeW⟩ sensorW = .ok (none, [])
      ∧ (none : Option String) ∉ [some "jump", some "duck", some "run"] := by
  constructor
  · norm_num [DinoNetwork.get_action]
  · simp

/-- C4: pickling the population with `save_population` and unpickling the same
file with the effective `load_population` restores a population with identical
genome ids, gene contents, species assignments and generation counter. -/
theorem C4_save_load_round_trip (c c2 : AIControllerState) (fs : FS) (fname : String) :
    ∃ c', AIController.load_population c2 (AIController.save_population c fs fname) fname
            = .ok (c', true)
      ∧ c'.population.members.map Prod.fst = c.population.members.map Prod.fst
      ∧ c'.population.members = c.population.members
      ∧ c'.population.species = c.population.species
      ∧ c'.population.generation = c.population.generation := by
  refine ⟨{ c2 with population := c.population }, ?_, rfl, rfl, rfl, rfl⟩
  simp [AIController.load_population, AIController.save_population, decodePopulation_encode]

/-- C6: when network activation raises inside `DinoNetwork.get_action`, the
exception is caught at the network-evaluator boundary: the method returns the
safe action "run", logs the error together with the offending input vector,
and no exception propagates to the caller. -/
theorem C6_activation_failure_recovered (act : ActSem) (net : DinoNet) (s : SensorData)
    (e : PyErr) (h : act net.genome (sensorInputs s) = .error e) :
    DinoNetwork.get_action act net s =
      .ok (some "run", [LogEntry.networkError e, LogEntry.offendingInputs (sensorInputs s)]) := by
  simp [DinoNetwork.get_action, h]

/-- Witness for C6 at a concrete always-raising activation. -/
theorem C6_witness :
    DinoNetwork.get_action (fun _ _ => .error (PyErr.other "nan")) ⟨genomeW⟩ sensorW =
      .ok (some "run", [LogEntry.networkError (PyErr.other "nan"),
                        LogEntry.offendingInputs (sensorInputs sensorW)]) :=
  C6_activation_failure_recovered (fun _ _ => .error (PyErr.other "nan")) ⟨genomeW⟩ sensorW
    (PyErr.other "nan") rfl

/-- C9: a successful run of the effective `load_population` replaces
`population` but leaves the network cache and the generation counter
untouched, so a later `get_action` for a genome id already in the cache still
evaluates the network built from the pre-load genome. -/
theorem C9_load_keeps_stale_network_cache (act : ActSem) (c : AIControllerState) (fs : FS)
    (fname : String) (v : PVal) (p : Population) (s : SensorData) (gid : ℕ) (net : DinoNet)
    (hf : fs fname = FileState.pickled v)
    (hd : decodePopulation v = some p)
    (hnet : lookupAssoc c.networks gid = some net) :
    AIController.load_population c fs fname = .ok ({ c with population := p }, true)
      ∧ ({ c with population := p } : AIControllerState).networks = c.networks
      ∧ ({ c with population := p } : AIControllerState).generation = c.generation
      ∧ AIController.get_action act { c with population := p } s gid
          = ({ c with population := p }, DinoNetwork.get_action act net s) := by
  refine ⟨?_, rfl, rfl, ?_⟩
  · simp [AIController.load_population, hf, hd]
  · simp [AIController.get_action, hnet]

/-- Witness for C9: load `popW2` over a controller whose cache holds the
network for genome id 1 built from `genomeW`. -/
theorem C9_witness :
    AIController.load_population ctrlCachedW (fun _ => FileState.pickled (encodePopulation popW2))
        "tests/population.pkl"
      = .ok ({ ctrlCachedW with population := popW2 }, true)
      ∧ ({ ctrlCachedW with population := popW2 } : AIControllerState).networks
          = ctrlCachedW.networks
      ∧ ({ ctrlCachedW with population := popW2 } : AIControllerState).generation
          = ctrlCachedW.generation
      ∧ AIController.get_action (fun _ _ => .ok [1, 0, 0]) { ctrlCachedW with population := popW2 }
            sensorW 1
          = ({ ctrlCachedW with population := popW2 },
             DinoNetwork.get_action (fun _ _ => .ok [1, 0, 0]) ⟨genomeW⟩ sensorW) :=
  C9_load_keeps_stale_network_cache (fun _ _ => .ok [1, 0, 0]) ctrlCachedW
    (fun _ => FileState.pickled (encodePopulation popW2)) "tests/population.pkl"
    (encodePopulation popW2) popW2 sensorW 1 ⟨genomeW⟩ rfl (decodePopulation_encode popW2) rfl

/-- C10: with a genome id neither in the network cache nor in the population,
`get_action` warns, returns the default action "run", and leaves the
controller state (cache, population, generation) unchanged. -/
theorem C10_unknown_genome_defaults_to_run (act : ActSem) (c : AIControllerState)
    (s : SensorData) (gid : ℕ)
    (h1 : lookupAssoc c.networks gid = none)
    (h2 : lookupAssoc c.population.members gid = none) :
    AIController.get_action act c s gid = (c, .ok (some "run", [LogEntry.genomeNotFound gid])) := by
  simp [AIController.get_action, h1, h2]

/-- Witness for C10 on a controller with an empty cache and empty population. -/
theorem C10_witness :
    AIController.get_action (fun _ _ => .ok [0, 0, 0]) ctrlEmptyW sensorW 7
      = (ctrlEmptyW, .ok (some "run", [LogEntry.genomeNotFound 7])) :=
  C10_unknown_genome_defaults_to_run (fun _ _ => .ok [0, 0, 0]) ctrlEmptyW sensorW 7 rfl rfl

/-- Helper: the effective `load_population` returns `False` exactly when the
file is missing. -/
theorem load_population_false_imp_absent (c c' : AIControllerState) (fs : FS) (fname : String)
    (h : AIController.load_population c fs fname = .ok (c', false)) :
    fs fname = FileState.absent := by
  cases hfs : fs fname with
  | absent => rfl
  | corrupt => simp [AIController.load_population, hfs] at h
  | pickled v =>
    cases hd : decodePopulation v with
    | none => simp [AIController.load_population, hfs, hd] at h
    | some p => simp [AIController.load_population, hfs, hd] at h

/-- C3: a missing snapshot and a corrupt snapshot are reported to the caller
as distinct conditions (population load: `False` vs a propagated unpickling
exception; best-genome load: `None` vs a propagated unpickling exception), and
`setup_training` performs a fresh-population reset only when the caller
explicitly requested one (`start_fresh`), never silently after a failed
load. -/
theorem C3_distinct_failures_no_silent_reset (tm : TrainingMgr) (freshPop : Population)
    (c c' : AIControllerState) (fs : FS) (fname : String) (b : Bool) :
    (fs fname = FileState.absent → AIController.load_population c fs fname = .ok (c, false))
    ∧ (fs fname = FileState.corrupt →
        AIController.load_population c fs fname = .error PyErr.unpicklingError)
    ∧ (fs fname = FileState.absent → AIController.load_best_genome fs fname = .ok none)
    ∧ (fs fname = FileState.corrupt →
        AIController.load_best_genome fs fname = .error PyErr.unpicklingError)
    ∧ (TrainingManager.setup_training tm freshPop c fs = .ok (c', b) → b = true →
        tm.start_fresh = true) := by
  refine ⟨?_, ?_, ?_, ?_, ?_⟩
  · intro h; simp [AIController.load_population, h]
  · intro h; simp [AIController.load_population, h]
  · intro h; simp [AIController.load_best_genome, h]
  · intro h; simp [AIController.load_best_genome, h]
  · intro hsetup hb
    subst hb
    by_contra hfresh
    rw [Bool.not_eq_true] at hfresh
    cases hp : tm.population_path with
    | none => simp [TrainingManager.setup_training, hfresh, hp] at hsetup
    | some p =>
      by_cases hex : fileExists fs p = true
      · cases hload : AIController.load_population c fs p with
        | error e =>
          simp [TrainingManager.setup_training, hfresh, hp, hex, hload] at hsetup
        | ok r =>
          obtain ⟨c'', b'⟩ := r
          cases b' with
          | true =>
            simp [TrainingManager.setup_training, hfresh, hp, hex, hload] at hsetup
          | false =>
            have habs := load_population_false_imp_absent c c'' fs p hload
            rw [fileExists, habs] at hex
            exact absurd hex (by simp)
      · simp [TrainingManager.setup_training, hfresh, hp, hex] at hsetup

/-- Witness for C3 on a file system with no files and a fresh-start manager. -/
theorem C3_witness :
    AIController.load_population ctrlW (fun _ => FileState.absent) "tests/population.pkl"
      = .ok (ctrlW, false) :=
  (C3_distinct_failures_no_silent_reset tmW popW ctrlW ctrlW (fun _ => FileState.absent)
    "tests/population.pkl" true).1 rfl

/-- Helper: no controller method ever assigns the `network_stats` attribute,
so on every reachable controller state it is undefined. -/
theorem reachable_network_stats_none (c : AIControllerState) (h : ReachableCtrl c) :
    c.network_stats = none := by
  induction h with
  | init freshPop => rfl
  | reset c freshPop _ ih => simpa [AIController.reset] using ih
  | load_population c c' fs fname b _ heq ih =>
    cases hfs : fs fname with
    | absent =>
      simp [AIController.load_population, hfs] at heq
      rw [← heq.1]; exact ih
    | corrupt => simp [AIController.load_population, hfs] at heq
    | pickled v =>
      cases hd : decodePopulation v with
      | none => simp [AIController.load_population, hfs, hd] at heq
      | some p =>
        simp [AIController.load_population, hfs, hd] at heq
        rw [← heq.1]; exact ih
  | get_action act c s gid _ ih =>
    cases hn : lookupAssoc c.networks gid with
    | some net => simpa [AIController.get_action, hn] using ih
    | none =>
      cases hg : lookupAssoc c.population.members gid with
      | some g => simpa [AIController.get_action, hn, hg] using ih
      | none => simpa [AIController.get_action, hn, hg] using ih
  | run_generation_ok nextGen c c' _ heq ih =>
    simp [AIController.run_generation, ih] at heq
  | run_generation_err nextGen c c' e _ heq ih =>
    have hrun : AIController.run_generation nextGen c
        = Except.error (runGenErrState nextGen c, PyErr.attributeError "network_stats") := by
      unfold AIController.run_generation runGenErrState
      rw [ih]
    rw [hrun] at heq
    have h1 : runGenErrState nextGen c = c' := by
      injection heq with h
      exact congrArg Prod.fst h
    rw [← h1]
    exact ih
  | setPopulation c p _ ih => simpa using ih

/-- C8: on every reachable controller state, `run_generation` raises
`AttributeError` at the `self.network_stats` read (reached right after
reproduction replaces the population and the cache is cleared), because no
method of the class ever assigns that attribute. -/
theorem C8_run_generation_always_raises (nextGen : Population → Population)
    (c : AIControllerState) (h : ReachableCtrl c) :
    ∃ c' : AIControllerState,
      AIController.run_generation nextGen c = .error (c', PyErr.attributeError "network_stats")
      ∧ c'.generation = c.generation + 1
      ∧ c'.population = nextGen c.population
      ∧ c'.networks = [] := by
  have hns := reachable_network_stats_none c h
  refine ⟨runGenErrState nextGen c, ?_, rfl, rfl, rfl⟩
  unfold AIController.run_generation runGenErrState
  rw [hns]

/-- Witness for C8 on a freshly constructed controller. -/
theorem C8_witness :
    ∃ c' : AIControllerState,
      AIController.run_generation (fun p => p) (AIController.init popW)
        = .error (c', PyErr.attributeError "network_stats")
      ∧ c'.generation = (AIController.init popW).generation + 1
      ∧ c'.population = popW
      ∧ c'.networks = [] :=
  C8_run_generation_always_raises (fun p => p) (AIController.init popW)
    (ReachableCtrl.init popW)

/-- Helper: no operation of a loop-body iteration is a persistence
operation. -/
theorem stepEvents_no_persist (st : GenSim) :
    ∀ e ∈ stepEvents st, e.isPersist = false := by
  intro e he
  unfold stepEvents at he
  rw [List.mem_append] at he
  rcases he with h | h
  · obtain ⟨d, _, rfl⟩ := List.mem_map.mp h
    rfl
  · fin_cases h <;> rfl

/-- Helper: the trace emitted while the generation loop is running contains
no persistence operation. -/
theorem genLoop_no_persist (env : ℕ → ℕ → Bool) (ticksAt : ℕ → ℕ) :
    ∀ (fuel i : ℕ) (st : GenSim), ∀ e ∈ (genLoop env ticksAt fuel i st).2, e.isPersist = false := by
  intro fuel
  induction fuel with
  | zero =>
    intro i st e he
    simp [genLoop] at he
  | succ n ih =>
    intro i st e he
    by_cases h : remainingDinos st = 0
    · simp [genLoop, h] at he
    · simp only [genLoop, h, if_neg, ite_false] at he
      rw [List.mem_append] at he
      rcases he with h1 | h2
      · exact stepEvents_no_persist st e h1
      · exact ih (i + 1) _ e h2

/-- C7: during every iteration of the `while running_generation` loop no
persistence operation executes; the operations of `run_dino_game_generation`
are exactly the (persistence-free) loop operations followed by the
generation-boundary checkpoint operations. -/
theorem C7_no_disk_io_in_hot_loop (env : ℕ → ℕ → Bool) (ticksAt : ℕ → ℕ) (fuel : ℕ)
    (gids : List ℕ) (hasTrainingManager : Bool) (generationCount : ℕ) :
    (∀ e ∈ (genLoop env ticksAt fuel 0 (initSim gids)).2, e.isPersist = false)
    ∧ (run_dino_game_generation env ticksAt fuel gids hasTrainingManager generationCount).2
        = (genLoop env ticksAt fuel 0 (initSim gids)).2
          ++ checkpointEvents hasTrainingManager generationCount :=
  ⟨fun e he => genLoop_no_persist env ticksAt fuel 0 (initSim gids) e he, rfl⟩

/-- Helper: every candidate the closest-obstacle scan returns lies strictly
ahead of the dino, so its distance is positive. -/
theorem scanObstacles_pos (dino : DinoS) :
    ∀ (obs : List ObstacleS) (best : Option (ℚ × ObstacleS)),
      (∀ p, best = some p → 0 < p.1) →
      ∀ p, scanObstacles dino obs best = some p → 0 < p.1 := by
  intro obs
  induction obs with
  | nil =>
    intro best hb p h
    exact hb p h
  | cons o rest ih =>
    intro best hb p h
    by_cases h1 : o.rect.x > dino.rect.right
    · cases best with
      | none =>
        simp only [scanObstacles, h1, if_true] at h
        refine ih _ ?_ p h
        intro q hq
        rw [Option.some.injEq] at hq
        rw [← hq]
        simpa [GameRect.left] using sub_pos.mpr h1
      | some bd =>
        by_cases h2 : o.rect.left - dino.rect.right < bd.1
        · simp only [scanObstacles, h1, if_true, h2] at h
          refine ih _ ?_ p h
          intro q hq
          rw [Option.some.injEq] at hq
          rw [← hq]
          simpa [GameRect.left] using sub_pos.mpr h1
        · simp only [scanObstacles, h1, if_true, h2, if_false] at h
          exact ih _ hb p h
    · simp only [scanObstacles, h1, if_false] at h
      exact ih _ hb p h

/-- C5 counterexample: the claim says all 12 sensor entries handed to
`net.activate` are normalized.  At the dino's spawn state (x = 50, the value
`Dino.__init__` always assigns and nothing ever changes) with no obstacle
ahead and base game speed 10, entry 7 (`dino_x`) is 50, far outside the unit
interval. -/
theorem C5_counterexample :
    sensorEntry (sensorInputs (extractSensorData dinoW [] 10)) 7 = 50
      ∧ ¬ isNormalized (sensorEntry (sensorInputs (extractSensorData dinoW [] 10)) 7) := by
  constructor
  · rfl
  · decide

/-- C5 (amended): every sensor vector handed to `net.activate` has exactly 12
entries; the distance entry and the obstacle-type entry are normalized to
[0, 1] and the speed entry is `speed / 25` (bounded by 1.02 under the loop's
speed cap of 25.5), while the geometry and state entries are raw pixel/state
values not confined to the unit interval. -/
theorem C5_amended_sensor_vector (dino : DinoS) (obstacles : List ObstacleS) (speed : ℚ)
    (h1 : 0 ≤ speed) (h2 : speed ≤ 51/2) :
    (sensorInputs (extractSensorData dino obstacles speed)).length = 12
    ∧ isNormalized (sensorEntry (sensorInputs (extractSensorData dino obstacles speed)) 0)
    ∧ isNormalized (sensorEntry (sensorInputs (extractSensorData dino obstacles speed)) 1)
    ∧ 0 ≤ sensorEntry (sensorInputs (extractSensorData dino obstacles speed)) 2
    ∧ sensorEntry (sensorInputs (extractSensorData dino obstacles speed)) 2 ≤ 51/50 := by
  refine ⟨rfl, ?_, ?_, ?_, ?_⟩
  · have hent : sensorEntry (sensorInputs (extractSensorData dino obstacles speed)) 0
        = (extractSensorData dino obstacles speed).distance := rfl
    rw [hent]
    unfold extractSensorData
    cases hscan : scanObstacles dino obstacles none with
    | none => simp [isNormalized]
    | some p =>
      have hpos : 0 < p.1 :=
        scanObstacles_pos dino obstacles none (fun q hq => by simp at hq) p hscan
      simp only [hscan]
      constructor
      · exact le_min (by norm_num) (by positivity)
      · exact min_le_left _ _
  · have hent : sensorEntry (sensorInputs (extractSensorData dino obstacles speed)) 1
        = (extractSensorData dino obstacles speed).type_encoded := rfl
    rw [hent]
    unfold extractSensorData
    cases hscan : scanObstacles dino obstacles none with
    | none => simp [isNormalized]
    | some p =>
      simp only [hscan]
      unfold typeEncode isNormalized
      split_ifs <;> norm_num
  · have hent : sensorEntry (sensorInputs (extractSensorData dino obstacles speed)) 2
        = speed / 25 := rfl
    rw [hent]
    positivity
  · have hent : sensorEntry (sensorInputs (extractSensorData dino obstacles speed)) 2
        = speed / 25 := rfl
    rw [hent]
    rw [div_le_iff₀ (by norm_num : (0:ℚ) < 25)]
    linarith

/-- Witness for the amended C5 at the spawn state with no obstacles and base
speed 10. -/
theorem C5_witness :
    (sensorInputs (extractSensorData dinoW [] 10)).length = 12
    ∧ isNormalized (sensorEntry (sensorInputs (extractSensorData dinoW [] 10)) 0)
    ∧ isNormalized (sensorEntry (sensorInputs (extractSensorData dinoW [] 10)) 1)
    ∧ 0 ≤ sensorEntry (sensorInputs (extractSensorData dinoW [] 10)) 2
    ∧ sensorEntry (sensorInputs (extractSensorData dinoW [] 10)) 2 ≤ 51/50 :=
  C5_amended_sensor_vector dinoW [] 10 (by norm_num) (by norm_num)

/-- Helper: the fitness write changes no genome ids. -/
theorem assignFitness_keys (gid : ℕ) (v : ℚ) :
    ∀ gs : List (ℕ × Option ℚ), (assignFitness gs gid v).map Prod.fst = gs.map Prod.fst := by
  intro gs
  induction gs with
  | nil => rfl
  | cons hd rest ih =>
    obtain ⟨g, f⟩ := hd
    by_cases h : g = gid
    · simp [assignFitness, h]
    · simp [assignFitness, h, ih]

/-- Helper: after the fitness write, the written genome id reads back the
written value. -/
theorem lookupAssoc_assignFitness_self (gid : ℕ) (v : ℚ) :
    ∀ gs : List (ℕ × Option ℚ), gid ∈ gs.map Prod.fst →
      lookupAssoc (assignFitness gs gid v) gid = some (some v) := by
  intro gs
  induction gs with
  | nil => intro h; simp at h
  | cons hd rest ih =>
    obtain ⟨g, f⟩ := hd
    intro hmem
    by_cases h : g = gid
    · simp [assignFitness, h, lookupAssoc]
    · have hrest : gid ∈ rest.map Prod.fst := by
        simp only [List.map_cons, List.mem_cons] at hmem
        rcases hmem with h1 | h1
        · exact absurd h1.symm h
        · exact h1
      simp [assignFitness, h, lookupAssoc, ih hrest]

/-- Helper: the fitness write leaves every other genome id's entry alone. -/
theorem lookupAssoc_assignFitness_other (gid gid' : ℕ) (v : ℚ) (hne : gid' ≠ gid) :
    ∀ gs : List (ℕ × Option ℚ),
      lookupAssoc (assignFitness gs gid v) gid' = lookupAssoc gs gid' := by
  intro gs
  induction gs with
  | nil => rfl
  | cons hd rest ih =>
    obtain ⟨g, f⟩ := hd
    by_cases h : g = gid
    · subst h
      have hkey : ¬ g = gid' := fun hh => hne hh.symm
      simp [assignFitness, lookupAssoc, hkey]
    · by_cases hk : g = gid'
      · simp [assignFitness, h, lookupAssoc, hk, hne]
      · simp [assignFitness, h, lookupAssoc, hk, ih]

/-- Helper: full specification of the collision phase: ids are preserved on
both lists, every dead dino in the result is scored with a nonnegative
fitness, and ids outside the dino list keep their entries. -/
theorem collideDinos_spec (env : ℕ → ℕ → Bool) (t : ℕ) :
    ∀ (dinos : List (ℕ × Bool)) (gs : List (ℕ × Option ℚ)),
      (dinos.map Prod.fst).Nodup →
      (∀ gid, gid ∈ dinos.map Prod.fst → gid ∈ gs.map Prod.fst) →
      (∀ gid dead, (gid, dead) ∈ dinos → dead = true → fitOK gs gid) →
      ((collideDinos env t dinos gs).1.map Prod.fst = dinos.map Prod.fst)
      ∧ ((collideDinos env t dinos gs).2.map Prod.fst = gs.map Prod.fst)
      ∧ (∀ gid dead, (gid, dead) ∈ (collideDinos env t dinos gs).1 → dead = true →
          fitOK (collideDinos env t dinos gs).2 gid)
      ∧ (∀ gid, gid ∉ dinos.map Prod.fst →
          lookupAssoc (collideDinos env t dinos gs).2 gid = lookupAssoc gs gid) := by
  intro dinos
  induction dinos with
  | nil =>
    intro gs hnd hsub hinv
    refine ⟨rfl, rfl, ?_, ?_⟩
    · intro gid dead hmem
      simp [collideDinos] at hmem
    · intro gid _
      rfl
  | cons hd rest ih =>
    obtain ⟨gid0, dead0⟩ := hd
    intro gs hnd hsub hinv
    have hnd1 : (rest.map Prod.fst).Nodup := (List.nodup_cons.mp (by simpa using hnd)).2
    have hgid0 : gid0 ∉ rest.map Prod.fst := (List.nodup_cons.mp (by simpa using hnd)).1
    by_cases hc : (!dead0 && env t gid0) = true
    · -- the head dino collides: it is marked dead and its genome scored
      have hmemgs : gid0 ∈ gs.map Prod.fst := hsub gid0 (by simp)
      have hv : (0 : ℚ) ≤ (t : ℚ) / 1000 := by positivity
      have hsub1 : ∀ gid, gid ∈ rest.map Prod.fst →
          gid ∈ (assignFitness gs gid0 ((t : ℚ) / 1000)).map Prod.fst := by
        intro gid hm
        rw [assignFitness_keys]
        exact hsub gid (by simp [hm])
      have hinv1 : ∀ gid dead, (gid, dead) ∈ rest → dead = true →
          fitOK (assignFitness gs gid0 ((t : ℚ) / 1000)) gid := by
        intro gid dead hm hdt
        obtain ⟨q, hlk, hq⟩ := hinv gid dead (by simp [hm]) hdt
        have hne : gid ≠ gid0 := by
          intro hh
          exact hgid0 (hh ▸ List.mem_map.mpr ⟨(gid, dead), hm, rfl⟩)
        exact ⟨q, by rw [lookupAssoc_assignFitness_other gid0 gid _ hne]; exact hlk, hq⟩
      obtain ⟨k1, k2, k3, k4⟩ := ih (assignFitness gs gid0 ((t : ℚ) / 1000)) hnd1 hsub1 hinv1
      have hred : collideDinos env t ((gid0, dead0) :: rest) gs =
          ((gid0, true) :: (collideDinos env t rest (assignFitness gs gid0 ((t : ℚ) / 1000))).1,
           (collideDinos env t rest (assignFitness gs gid0 ((t : ℚ) / 1000))).2) := by
        simp [collideDinos, hc]
      refine ⟨?_, ?_, ?_, ?_⟩
      · rw [hred]
        simpa using k1
      · rw [hred]
        rw [k2, assignFitness_keys]
      · rw [hred]
        intro gid dead hm hdt
        rcases List.mem_cons.mp hm with hh | htail
        · rw [Prod.mk.injEq] at hh
          obtain ⟨he1, he2⟩ := hh
          subst he1
          have hself := lookupAssoc_assignFitness_self gid ((t : ℚ) / 1000) gs hmemgs
          exact ⟨(t : ℚ) / 1000, by rw [k4 gid hgid0]; exact hself, hv⟩
        · exact k3 gid dead htail hdt
      · rw [hred]
        intro gid hm
        have hne : gid ≠ gid0 := by
          intro hh
          exact hm (by simp [hh])
        have hnr : gid ∉ rest.map Prod.fst := by
          intro hh
          exact hm (by simp [hh])
        rw [k4 gid hnr]
        exact lookupAssoc_assignFitness_other gid0 gid _ hne gs
    · -- the head dino does not change state this frame
      have hsub1 : ∀ gid, gid ∈ rest.map Prod.fst → gid ∈ gs.map Prod.fst := by
        intro gid hm
        exact hsub gid (by simp [hm])
      have hinv1 : ∀ gid dead, (gid, dead) ∈ rest → dead = true → fitOK gs gid := by
        intro gid dead hm hdt
        exact hinv gid dead (by simp [hm]) hdt
      obtain ⟨k1, k2, k3, k4⟩ := ih gs hnd1 hsub1 hinv1
      have hred : collideDinos env t ((gid0, dead0) :: rest) gs =
          ((gid0, dead0) :: (collideDinos env t rest gs).1,
           (collideDinos env t rest gs).2) := by
        simp [collideDinos, hc]
      refine ⟨?_, ?_, ?_, ?_⟩
      · rw [hred]
        simpa using k1
      · rw [hred]
        exact k2
      · rw [hred]
        intro gid dead hm hdt
        rcases List.mem_cons.mp hm with hh | htail
        · rw [Prod.mk.injEq] at hh
          obtain ⟨he1, he2⟩ := hh
          subst he1
          subst he2
          obtain ⟨q, hlk, hq⟩ := hinv gid dead (by simp) hdt
          exact ⟨q, by rw [k4 gid hgid0]; exact hlk, hq⟩
        · exact k3 gid dead htail hdt
      · rw [hred]
        intro gid hm
        have hnr : gid ∉ rest.map Prod.fst := by
          intro hh
          exact hm (by simp [hh])
        exact k4 gid hnr

/-- Helper: on an association list with unique keys, a member pair is what a
lookup of its key returns. -/
theorem lookupAssoc_eq_of_mem_nodup {β : Type} :
    ∀ (l : List (ℕ × β)) (g : ℕ) (b : β), (l.map Prod.fst).Nodup → (g, b) ∈ l →
      lookupAssoc l g = some b := by
  intro l
  induction l with
  | nil =>
    intro g b _ hm
    simp at hm
  | cons hd rest ih =>
    obtain ⟨k, v⟩ := hd
    intro g b hnd hm
    rcases List.mem_cons.mp hm with heq | htail
    · rw [Prod.mk.injEq] at heq
      obtain ⟨h1, h2⟩ := heq
      subst h1
      subst h2
      simp [lookupAssoc]
    · by_cases hk : k = g
      · subst hk
        exfalso
        have hnd' := hnd
        simp only [List.map_cons, List.nodup_cons] at hnd'
        exact hnd'.1 (List.mem_map.mpr ⟨(k, b), htail, rfl⟩)
      · have hnd' := hnd
        simp only [List.map_cons, List.nodup_cons] at hnd'
        simpa [lookupAssoc, hk] using ih g b hnd'.2 htail

/-- Helper: when the loop's exit condition holds, every dino is dead. -/
theorem remainingDinos_zero_all_dead (st : GenSim) (h : remainingDinos st = 0) :
    ∀ gid dead, (gid, dead) ∈ st.dinos → dead = true := by
  intro gid dead hm
  cases dead with
  | true => rfl
  | false =>
    exfalso
    unfold remainingDinos at h
    rw [List.length_eq_zero] at h
    have hmf : (gid, false) ∈ st.dinos.filter (fun d => !d.2) :=
      List.mem_filter.mpr ⟨hm, rfl⟩
    rw [h] at hmf
    simp at hmf

/-- Helper: one collision phase preserves the loop invariant. -/
theorem simInv_step (env : ℕ → ℕ → Bool) (t : ℕ) (st : GenSim) (h : simInv st) :
    simInv (stepSim env t st) := by
  obtain ⟨hnd, hkeys, hinv⟩ := h
  have hsub : ∀ gid, gid ∈ st.dinos.map Prod.fst → gid ∈ st.genomes.map Prod.fst := by
    intro gid hm
    rw [← hkeys]
    exact hm
  obtain ⟨k1, k2, k3, k4⟩ := collideDinos_spec env t st.dinos st.genomes hnd hsub hinv
  refine ⟨?_, ?_, ?_⟩
  · rw [stepSim]
    simpa [k1] using hnd
  · rw [stepSim]
    simp only [k1, k2]
    exact hkeys
  · intro gid dead hm hdt
    exact k3 gid dead hm hdt

/-- Helper: a normally-completed loop run preserves the invariant and ends
with no dino alive. -/
theorem genLoop_inv (env : ℕ → ℕ → Bool) (ticksAt : ℕ → ℕ) :
    ∀ (fuel i : ℕ) (st st' : GenSim) (evs : List GameEv),
      simInv st → genLoop env ticksAt fuel i st = (some st', evs) →
      simInv st' ∧ remainingDinos st' = 0 := by
  intro fuel
  induction fuel with
  | zero =>
    intro i st st' evs hin hrun
    simp [genLoop] at hrun
  | succ n ih =>
    intro i st st' evs hin hrun
    by_cases h : remainingDinos st = 0
    · unfold genLoop at hrun
      rw [if_pos h] at hrun
      rw [Prod.mk.injEq] at hrun
      obtain ⟨h1, _⟩ := hrun
      rw [Option.some.injEq] at h1
      rw [← h1]
      exact ⟨hin, h⟩
    · unfold genLoop at hrun
      rw [if_neg h] at hrun
      have h1 : (genLoop env ticksAt n (i + 1) (stepSim env (ticksAt i) st)).1 = some st' :=
        congrArg Prod.fst hrun
      have h2 : genLoop env ticksAt n (i + 1) (stepSim env (ticksAt i) st)
          = (some st', (genLoop env ticksAt n (i + 1) (stepSim env (ticksAt i) st)).2) := by
        rw [← h1]
      exact ih (i + 1) (stepSim env (ticksAt i) st) st' _
        (simInv_step env (ticksAt i) st hin) h2

/-- Helper: projecting the first components out of a constant-pairing map
gives the original list. -/
theorem map_fst_map_pair {β : Type} (b : β) (l : List ℕ) :
    (l.map (fun g => (g, b))).map Prod.fst = l := by
  induction l with
  | nil => rfl
  | cons x xs ih => simp [ih]

/-- C2: when `run_dino_game_generation` completes normally (the loop exits
because every dino is dead), every genome in the evaluated genomes list ends
the generation with a non-None fitness that is a nonnegative number. -/
theorem C2_normal_completion_scores_every_genome (env : ℕ → ℕ → Bool) (ticksAt : ℕ → ℕ)
    (fuel : ℕ) (gids : List ℕ) (hasTrainingManager : Bool) (generationCount : ℕ)
    (st : GenSim) (evs : List GameEv)
    (hnd : gids.Nodup)
    (hrun : run_dino_game_generation env ticksAt fuel gids hasTrainingManager generationCount
        = (some st, evs)) :
    ∀ p ∈ st.genomes, ∃ q : ℚ, p.2 = some q ∧ 0 ≤ q := by
  have hinv0 : simInv (initSim gids) := by
    refine ⟨?_, ?_, ?_⟩
    · show ((gids.map (fun g => (g, false))).map Prod.fst).Nodup
      rw [map_fst_map_pair]
      exact hnd
    · show (gids.map (fun g => (g, false))).map Prod.fst
        = (gids.map (fun g => (g, (none : Option ℚ)))).map Prod.fst
      rw [map_fst_map_pair, map_fst_map_pair]
    · intro gid dead hm hdt
      subst hdt
      simp [initSim] at hm
  have h1 : (genLoop env ticksAt fuel 0 (initSim gids)).1 = some st :=
    congrArg Prod.fst hrun
  have h2 : genLoop env ticksAt fuel 0 (initSim gids)
      = (some st, (genLoop env ticksAt fuel 0 (initSim gids)).2) := by
    rw [← h1]
  obtain ⟨⟨hnd', hkeys, hinv⟩, hrem⟩ :=
    genLoop_inv env ticksAt fuel 0 (initSim gids) st _ hinv0 h2
  intro p hp
  obtain ⟨g, f⟩ := p
  have hgk : g ∈ st.genomes.map Prod.fst := List.mem_map.mpr ⟨(g, f), hp, rfl⟩
  rw [← hkeys] at hgk
  obtain ⟨pr, hpr, hfst⟩ := List.mem_map.mp hgk
  have hd : (g, pr.2) ∈ st.dinos := by
    have hpair : pr = (g, pr.2) := Prod.ext hfst rfl
    rw [← hpair]
    exact hpr
  have hdead := remainingDinos_zero_all_dead st hrem g pr.2 hd
  obtain ⟨q, hlk, hq⟩ := hinv g pr.2 hd hdead
  have hnodg : (st.genomes.map Prod.fst).Nodup := by
    rw [← hkeys]
    exact hnd'
  have hlk2 := lookupAssoc_eq_of_mem_nodup st.genomes g f hnodg hp
  rw [hlk2] at hlk
  rw [Option.some.injEq] at hlk
  exact ⟨q, hlk, hq⟩

/-- Witness for C2: one dino, colliding at the first frame (tick value 0),
ends the generation scored with fitness 0. -/
theorem C2_witness :
    ∃ q : ℚ, ((1, some (0 : ℚ)) : ℕ × Option ℚ).2 = some q ∧ 0 ≤ q :=
  C2_normal_completion_scores_every_genome (fun _ _ => true) (fun _ => 0) 2 [1] false 1
    ⟨[(1, true)], [(1, some (0 : ℚ))]⟩
    [GameEv.getActionEv 1, GameEv.obstacleUpdate, GameEv.render, GameEv.clockTick]
    (by decide)
    (by simp [run_dino_game_generation, genLoop, stepSim, collideDinos, assignFitness,
      initSim, stepEvents, remainingDinos, checkpointEvents])
    (1, some (0 : ℚ)) (by simp)

end RexAI
